import Mathlib

/-!
Verification of the memory-and-bus subsystem of the ysawyers/chip8 Game Boy
emulator (src/gb/src/internal/memory.rs), shallowly embedded in Lean 4.

Bytes are modelled as `Nat` values; the source masks with `& 0xFF`-style
operations wherever width matters, and those masks are mirrored literally.
Rust `Vec<u8>` and fixed arrays are modelled as `List Nat`.  An operation
that can panic in Rust (out-of-bounds indexing, `unreachable!`, `panic!`)
is modelled in `Option`, with `none` standing for the panic.
-/

namespace GB

set_option maxRecDepth 4096

/-- Header offset of the MBC type byte (memory.rs line 6). -/
def MBC_TYPE : Nat := 0x0147

/-- Header offset of the RAM size byte (memory.rs line 7). -/
def RAM_SIZE : Nat := 0x0149

/-- MBC1 banking mode (memory.rs lines 9-12). -/
inductive BankingMode where
  | SIMPLE
  | ADVANCED
deriving DecidableEq, Repr

/-- Cartridge memory bank controller kind (memory.rs lines 14-17). -/
inductive MemoryBank where
  | MBCNONE
  | MBC1
  | MBC1M
  | MBC3
deriving DecidableEq, Repr

/-- Modelled from the spec: the PPU capability interface of section 6.2.
The PPU source file is not part of the provided sources; the bus consumes
owned buffers `vram` (8 KiB) and `oam` (160 bytes), a register file for
0xFF40..0xFF4B, the scalars `stat`, `ly`, `lyc`, and the two IRQ edge
flags.  Register reads and writes are modelled as an indexed byte file. -/
structure PPU where
  vram : List Nat
  oam : List Nat
  regs : List Nat
  stat : Nat
  ly : Nat
  lyc : Nat
  vblank_irq_triggered : Bool
  stat_irq_triggered : Bool
deriving DecidableEq, Repr

/-- Modelled from the spec: the Timer capability interface of section 6.2,
a register file for 0xFF04..0xFF07 plus the `tima_irq` delay counter. -/
structure Timer where
  regs : List Nat
  tima_irq : Nat
deriving DecidableEq, Repr

/-- Modelled from the spec: the APU is carried by the bus but never consulted
by any of the routines in memory.rs, so it has no observable fields here. -/
structure APU where
deriving DecidableEq, Repr

/-- The bus state: the fields of `struct Memory` (memory.rs lines 19-49). -/
structure Memory where
  flat_ram : Bool
  bess_buffer_offsets : List Nat
  rom_chip : List Nat
  wram : List Nat
  hram : List Nat
  sram : List Nat
  boot_rom : List Nat
  mbc_ram_enabled : Bool
  boot_rom_mounted : Bool
  memory_bank : MemoryBank
  banking_mode : BankingMode
  rom_bank_number : Nat
  ram_rom_bank_number : Nat
  IE : Nat
  IF : Nat
  keypress : Int
  joyp : Nat
  ppu : PPU
  apu : APU
  timer : Timer
deriving DecidableEq, Repr

/-- Modelled from the spec: sub-device defaults are not in the provided
sources; buffers start zeroed and the edge flags start consumed. -/
def PPU.default : PPU :=
  { vram := List.replicate 0x2000 0
    oam := List.replicate 0xA0 0
    regs := List.replicate 0xC 0
    stat := 0
    ly := 0
    lyc := 0
    vblank_irq_triggered := true
    stat_irq_triggered := true }

/-- Modelled from the spec: timer defaults, zeroed registers and counter. -/
def Timer.default : Timer := { regs := List.replicate 4 0, tima_irq := 0 }

/-- `Memory::default` (memory.rs lines 399-424). -/
def memDefault : Memory :=
  { flat_ram := false
    bess_buffer_offsets := []
    rom_chip := []
    wram := List.replicate 0x2000 0
    hram := List.replicate 0x7F 0
    sram := []
    boot_rom := List.replicate 0x100 0
    mbc_ram_enabled := false
    boot_rom_mounted := false
    memory_bank := .MBCNONE
    banking_mode := .SIMPLE
    rom_bank_number := 0
    ram_rom_bank_number := 0
    IE := 0
    IF := 0
    keypress := -1
    joyp := 0
    ppu := PPU.default
    apu := {}
    timer := Timer.default }

/-- `Vec::resize(n, v)`: truncate to `n` elements or pad with `v` up to `n`. -/
def listResize (l : List Nat) (n : Nat) (v : Nat) : List Nat :=
  if n ≤ l.length then l.take n else l ++ List.replicate (n - l.length) v

/-- The 48-byte Nintendo logo constant (memory.rs lines 52-54). -/
def NINTENDO_LOGO : List Nat :=
  [0xCE, 0xED, 0x66, 0x66, 0xCC, 0x0D, 0x00, 0x0B, 0x03, 0x73, 0x00, 0x83, 0x00, 0x0C, 0x00, 0x0D,
   0x00, 0x08, 0x11, 0x1F, 0x88, 0x89, 0x00, 0x0E, 0xDC, 0xCC, 0x6E, 0xE6, 0xDD, 0xDD, 0xD9, 0x99,
   0xBB, 0xBB, 0x67, 0x63, 0x6E, 0x0E, 0xEC, 0xCC, 0xDD, 0xDC, 0x99, 0x9F, 0xBB, 0xB9, 0x33, 0x3E]

/-- The MBC1-multicart detection loop of `load_cartridge` (memory.rs lines
85-99).  The Rust loop runs `i` from 0x7FFF down to 0x4000; here `fuel`
counts the remaining iterations, so `i = 0x4000 + fuel - 1`.  Detecting a
multicart panics (`not implemented MBC1M yet`), modelled as `none`; leaving
the loop with the cartridge still classified MBC1 is `some ()`. -/
def mbc1m_scan (rom : List Nat) : Nat → Int → Option Unit
  | 0, _ => some ()
  | fuel + 1, logo_ptr =>
    if logo_ptr < 0 then none
    else
      let i := 0x4000 + fuel
      let bank_ten_ptr := ((0x10 : Nat) <<< 14) ||| (i &&& 0x3FFF)
      if rom.length ≤ bank_ten_ptr then some ()
      else if rom.getD bank_ten_ptr 0 = NINTENDO_LOGO.getD logo_ptr.toNat 0 then
        mbc1m_scan rom fuel (logo_ptr - 1)
      else
        mbc1m_scan rom fuel ((NINTENDO_LOGO.length : Int) - 1)

/-- `load_cartridge` (memory.rs lines 63-104).  Indexing the header of a
too-short file panics (`none`); an unsupported MBC byte or a detected
MBC1 multicart panics (`none`). -/
def load_cartridge (s : Memory) (bytes : List Nat) : Option Memory :=
  let s1 : Memory := { s with rom_chip := bytes }
  match s1.rom_chip.get? RAM_SIZE with
  | none => none
  | some rs =>
    let s2 : Memory := { s1 with sram :=
      if rs = 0x02 then listResize s1.sram 0x2000 0x00
      else if rs = 0x03 then listResize s1.sram (0x2000 * 4) 0x00
      else if rs = 0x04 then listResize s1.sram (0x2000 * 16) 0x00
      else if rs = 0x05 then listResize s1.sram (0x2000 * 8) 0x00
      else s1.sram }
    match s2.rom_chip.get? MBC_TYPE with
    | none => none
    | some mt =>
      if mt = 0x00 then
        some { s2 with memory_bank := .MBCNONE, rom_chip := listResize s2.rom_chip 0x10000 0x00 }
      else if 0x01 ≤ mt ∧ mt ≤ 0x03 then
        match mbc1m_scan s2.rom_chip 0x4000 ((NINTENDO_LOGO.length : Int) - 1) with
        | none => none
        | some _ => some { s2 with memory_bank := .MBC1 }
      else if 0x0F ≤ mt ∧ mt ≤ 0x13 then some { s2 with memory_bank := .MBC3 }
      else none

/-- Indexed store into SRAM; the Rust `self.sram[i] = v` panics when `i` is
out of bounds, modelled as `none`. -/
def sramSet (s : Memory) (i v : Nat) : Option Memory :=
  if i < s.sram.length then some { s with sram := s.sram.set i v } else none

/-- `mbc1_read` (memory.rs lines 217-241).  The catch-all arm is
`unreachable!`, modelled as `none`.  The Rust `&&` in the 32-KiB-cart test
short-circuits, so the header byte is only read in ADVANCED mode. -/
def mbc1_read (s : Memory) (addr : Nat) : Option Nat :=
  if addr ≤ 0x3FFF then
    let offset := if s.banking_mode = .ADVANCED then
        (s.ram_rom_bank_number <<< 19) ||| (addr &&& 0x3FFF)
      else addr
    s.rom_chip.get? (offset &&& (s.rom_chip.length - 1))
  else if addr ≤ 0x7FFF then
    let translated_bank_number := if s.rom_bank_number = 0x00 then 0x01 else s.rom_bank_number
    let offset := (s.ram_rom_bank_number <<< 19) ||| (translated_bank_number <<< 14) ||| (addr &&& 0x3FFF)
    s.rom_chip.get? (offset &&& (s.rom_chip.length - 1))
  else if 0xA000 ≤ addr ∧ addr ≤ 0xBFFF then
    if s.mbc_ram_enabled then
      if s.banking_mode = .ADVANCED then
        match s.rom_chip.get? RAM_SIZE with
        | none => none
        | some rs =>
          s.sram.get? ((if rs = 0x03 then s.ram_rom_bank_number * 0x2000 else 0) + (addr &&& 0x1FFF))
      else s.sram.get? (addr &&& 0x1FFF)
    else some 0xFF
  else none

/-- `mbc1_write` (memory.rs lines 243-260). -/
def mbc1_write (s : Memory) (addr val : Nat) : Option Memory :=
  if addr ≤ 0x1FFF then some { s with mbc_ram_enabled := val &&& 0xF == 0xA }
  else if addr ≤ 0x3FFF then some { s with rom_bank_number := val &&& 0x1F }
  else if addr ≤ 0x5FFF then some { s with ram_rom_bank_number := val &&& 0x3 }
  else if addr ≤ 0x7FFF then
    some { s with banking_mode := if val &&& 0x1 = 1 then .ADVANCED else .SIMPLE }
  else if 0xA000 ≤ addr ∧ addr ≤ 0xBFFF then
    if s.mbc_ram_enabled then
      if s.banking_mode = .ADVANCED then
        match s.rom_chip.get? RAM_SIZE with
        | none => none
        | some rs =>
          sramSet s ((if rs = 0x03 then s.ram_rom_bank_number * 0x2000 else 0) + (addr &&& 0x1FFF)) val
      else sramSet s (addr &&& 0x1FFF) val
    else some s
  else none

/-- `mbc3_read` (memory.rs lines 262-286).  An SRAM-window access with the
upper register above 3 hits `unreachable!` for the unimplemented RTC. -/
def mbc3_read (s : Memory) (addr : Nat) : Option Nat :=
  if addr ≤ 0x3FFF then s.rom_chip.get? (addr &&& 0x3FFF)
  else if addr ≤ 0x7FFF then
    let offset := (s.rom_bank_number <<< 14) ||| (addr &&& 0x3FFF)
    s.rom_chip.get? (offset &&& (s.rom_chip.length - 1))
  else if 0xA000 ≤ addr ∧ addr ≤ 0xBFFF then
    if 0x03 < s.ram_rom_bank_number then none
    else if s.mbc_ram_enabled then
      if s.banking_mode = .ADVANCED then
        match s.rom_chip.get? RAM_SIZE with
        | none => none
        | some rs =>
          s.sram.get? ((if rs = 0x03 then s.ram_rom_bank_number * 0x2000 else 0) + (addr &&& 0x1FFF))
      else s.sram.get? (addr &&& 0x1FFF)
    else some 0xFF
  else none

/-- `mbc3_write` (memory.rs lines 288-312).  Note: unlike `mbc3_read`, the
SRAM-window arm performs no check of the upper register. -/
def mbc3_write (s : Memory) (addr val : Nat) : Option Memory :=
  if addr ≤ 0x1FFF then
    if val = 0x0A then some { s with mbc_ram_enabled := true }
    else if val = 0x00 then some { s with mbc_ram_enabled := false }
    else some s
  else if addr ≤ 0x3FFF then
    some { s with rom_bank_number := if val = 0x00 then 0x01 else val &&& 0x7F }
  else if addr ≤ 0x5FFF then some { s with ram_rom_bank_number := val }
  else if addr ≤ 0x7FFF then some s
  else if 0xA000 ≤ addr ∧ addr ≤ 0xBFFF then
    if s.mbc_ram_enabled then
      if s.banking_mode = .ADVANCED then
        match s.rom_chip.get? RAM_SIZE with
        | none => none
        | some rs =>
          sramSet s ((if rs = 0x03 then s.ram_rom_bank_number * 0x2000 else 0) + (addr &&& 0x1FFF)) val
      else sramSet s (addr &&& 0x1FFF) val
    else some s
  else none

/-- The joypad decoder behind a read of 0xFF00 (memory.rs lines 138-162). -/
def joypadRead (s : Memory) : Nat :=
  if s.keypress ≠ -1 then
    if ((s.joyp >>> 4) &&& 0x1 = 0) ∧ ((s.joyp >>> 5) &&& 0x1 = 1) then
      if s.keypress = 1 then 0xF &&& (0xFF ^^^ (1 <<< 2))
      else if s.keypress = 2 then 0xF &&& (0xFF ^^^ (1 <<< 1))
      else if s.keypress = 3 then 0xF &&& (0xFF ^^^ (1 <<< 3))
      else if s.keypress = 4 then 0xF &&& (0xFF ^^^ (1 <<< 0))
      else 0xF
    else if ((s.joyp >>> 5) &&& 0x1 = 0) ∧ ((s.joyp >>> 4) &&& 0x1 = 1) then
      if s.keypress = 5 then 0xF &&& (0xFF ^^^ (1 <<< 0))
      else if s.keypress = 6 then 0xF &&& (0xFF ^^^ (1 <<< 1))
      else if s.keypress = 7 then 0xF &&& (0xFF ^^^ (1 <<< 3))
      else if s.keypress = 8 then 0xF &&& (0xFF ^^^ (1 <<< 2))
      else 0xF
    else 0xF
  else 0xF

/-- `read` (memory.rs lines 113-173).  The match arms of the source do not
overlap, so the fixed order of this if-chain mirrors them faithfully. -/
def read (s : Memory) (addr : Nat) : Option Nat :=
  if s.boot_rom_mounted = true ∧ addr ≤ 0xFF then s.boot_rom.get? addr
  else if addr ≤ 0x7FFF then
    match s.memory_bank with
    | .MBC1 => mbc1_read s addr
    | .MBC3 => mbc3_read s addr
    | _ => s.rom_chip.get? addr
  else if 0xA000 ≤ addr ∧ addr ≤ 0xBFFF then
    match s.memory_bank with
    | .MBC1 => mbc1_read s addr
    | .MBC3 => mbc3_read s addr
    | _ => s.rom_chip.get? addr
  else if 0x8000 ≤ addr ∧ addr ≤ 0x9FFF then some (s.ppu.vram.getD (addr - 0x8000) 0)
  else if 0xC000 ≤ addr ∧ addr ≤ 0xDFFF then s.wram.get? (addr - 0xC000)
  else if 0xFE00 ≤ addr ∧ addr ≤ 0xFE9F then some (s.ppu.oam.getD (addr - 0xFE00) 0)
  else if addr = 0xFF00 then some (joypadRead s)
  else if addr = 0xFF01 then some 0xFF
  else if 0xFF04 ≤ addr ∧ addr ≤ 0xFF07 then some (s.timer.regs.getD (addr - 0xFF04) 0)
  else if addr = 0xFF0F then some s.IF
  else if 0xFF40 ≤ addr ∧ addr ≤ 0xFF4B then some (s.ppu.regs.getD (addr - 0xFF40) 0)
  else if addr = 0xFF50 then some (if s.boot_rom_mounted then 1 else 0)
  else if 0xFF80 ≤ addr ∧ addr ≤ 0xFFFE then s.hram.get? (addr - 0xFF80)
  else if addr = 0xFFFF then some s.IE
  else some 0x00

/-- One step of `oam_dma_transfer` (memory.rs lines 211-215): store the bus
read of `source + i` into OAM slot `i` and continue with the next slot;
`fuel` counts the remaining slots. -/
def oam_dma_go (source : Nat) : Nat → Nat → Memory → Option Memory
  | _, 0, s => some s
  | i, fuel + 1, s =>
    match read s (source + i) with
    | none => none
    | some b => oam_dma_go source (i + 1) fuel { s with ppu := { s.ppu with oam := s.ppu.oam.set i b } }

/-- `oam_dma_transfer` (memory.rs lines 211-215): 160 sequential bus reads
copied into OAM. -/
def oam_dma_transfer (s : Memory) (source : Nat) : Option Memory :=
  oam_dma_go source 0 0xA0 s

/-- `write` (memory.rs lines 175-209).  The 0xFF46 arm precedes the
0xFF40..0xFF4B arm exactly as in the source. -/
def write (s : Memory) (addr val : Nat) : Option Memory :=
  if addr ≤ 0x7FFF then
    match s.memory_bank with
    | .MBC1 => mbc1_write s addr val
    | .MBC3 => mbc3_write s addr val
    | _ => some s
  else if 0xA000 ≤ addr ∧ addr ≤ 0xBFFF then
    match s.memory_bank with
    | .MBC1 => mbc1_write s addr val
    | .MBC3 => mbc3_write s addr val
    | _ => some s
  else if 0x8000 ≤ addr ∧ addr ≤ 0x9FFF then
    some { s with ppu := { s.ppu with vram := s.ppu.vram.set (addr - 0x8000) val } }
  else if 0xC000 ≤ addr ∧ addr ≤ 0xDFFF then some { s with wram := s.wram.set (addr - 0xC000) val }
  else if 0xFE00 ≤ addr ∧ addr ≤ 0xFE9F then
    some { s with ppu := { s.ppu with oam := s.ppu.oam.set (addr - 0xFE00) val } }
  else if addr = 0xFF00 then some { s with joyp := val }
  else if 0xFF04 ≤ addr ∧ addr ≤ 0xFF07 then
    some { s with timer := { s.timer with regs := s.timer.regs.set (addr - 0xFF04) val } }
  else if addr = 0xFF0F then some { s with IF := val }
  else if addr = 0xFF46 then oam_dma_transfer s (val <<< 8)
  else if 0xFF40 ≤ addr ∧ addr ≤ 0xFF4B then
    some { s with ppu := { s.ppu with regs := s.ppu.regs.set (addr - 0xFF40) val } }
  else if addr = 0xFF50 then
    some (if val &&& 0x1 = 1 then { s with boot_rom_mounted := false } else s)
  else if 0xFF80 ≤ addr ∧ addr ≤ 0xFFFE then some { s with hram := s.hram.set (addr - 0xFF80) val }
  else if addr = 0xFFFF then some { s with IE := val }
  else some s

/-- Modelled from the spec: `u32_to_little_endian` lives outside memory.rs;
section 6.3 specifies little-endian 32-bit words in the offset table. -/
def u32le (n : Nat) : List Nat :=
  [n &&& 0xFF, (n >>> 8) &&& 0xFF, (n >>> 16) &&& 0xFF, (n >>> 24) &&& 0xFF]

/-- `aggregate_buffers` (memory.rs lines 323-357): returns the updated state
(with the grown `bess_buffer_offsets` table) together with the blob. -/
def aggregate_buffers (s : Memory) : Memory × List Nat :=
  let buffers0 : List Nat := []
  let offs1 := s.bess_buffer_offsets ++ u32le s.wram.length ++ u32le buffers0.length
  let buffers1 := buffers0 ++ s.wram
  let offs2 := offs1 ++ u32le s.ppu.vram.length ++ u32le buffers1.length
  let buffers2 := buffers1 ++ s.ppu.vram
  let offs3 := offs2 ++ u32le s.sram.length ++ u32le buffers2.length
  let buffers3 := buffers2 ++ s.sram
  let offs4 := offs3 ++ u32le s.ppu.oam.length ++ u32le buffers3.length
  let buffers4 := buffers3 ++ s.ppu.oam
  let offs5 := offs4 ++ u32le s.hram.length ++ u32le buffers4.length
  let buffers5 := buffers4 ++ s.hram
  let offs6 := offs5 ++ u32le 0x00 ++ u32le buffers5.length
  let offs7 := offs6 ++ u32le 0x00 ++ u32le buffers5.length
  ({ s with bess_buffer_offsets := offs7 }, buffers5)

/-- `propogate_buffers` (memory.rs lines 359-361): the restore entry point;
its body is empty in the source, so it returns the state unchanged. -/
def propogate_buffers (s : Memory) : Memory := s

/-- `update_requested_interrupts` (memory.rs lines 363-387).  Each Rust
statement `if c { requests |= b }` is rendered as `||| (if c then b else 0)`. -/
def update_requested_interrupts (s : Memory) : Memory :=
  let requests1 : Nat := if s.ppu.vblank_irq_triggered = false then 0 ||| 0b00000001 else 0
  let ppu1 := if s.ppu.vblank_irq_triggered = false then
      { s.ppu with vblank_irq_triggered := true } else s.ppu
  let requests2 :=
    if s.ppu.stat_irq_triggered = false then
      requests1
        ||| (if ((s.ppu.stat >>> 6) &&& 0x1 = 1) ∧ (s.ppu.ly = s.ppu.lyc) then 0b00000010 else 0)
        ||| (if ((s.ppu.stat >>> 5) &&& 0x1 = 1) ∧ (s.ppu.stat &&& 0x3 = 2) then 0b00000010 else 0)
        ||| (if ((s.ppu.stat >>> 4) &&& 0x1 = 1) ∧ (s.ppu.stat &&& 0x3 = 1) then 0b00000010 else 0)
        ||| (if ((s.ppu.stat >>> 3) &&& 0x1 = 1) ∧ (s.ppu.stat &&& 0x3 = 0) then 0b00000010 else 0)
    else requests1
  let ppu2 := if s.ppu.stat_irq_triggered = false then
      { ppu1 with stat_irq_triggered := true } else ppu1
  let requests3 :=
    if 0 < s.timer.tima_irq then
      if s.timer.tima_irq - 1 = 0 then requests2 ||| 0b00000100 else requests2
    else requests2
  let timer1 := if 0 < s.timer.tima_irq then
      { s.timer with tima_irq := s.timer.tima_irq - 1 } else s.timer
  { s with ppu := ppu2, timer := timer1, IF := s.IF ||| requests3 }

/-- The cartridge dispatch shared by the two MBC arms of `read`
(memory.rs lines 119-134): MBC1 and MBC3 route to their translators and
every other kind falls through to a plain ROM index. -/
def cartRomRead (s : Memory) (addr : Nat) : Option Nat :=
  match s.memory_bank with
  | .MBC1 => mbc1_read s addr
  | .MBC3 => mbc3_read s addr
  | _ => s.rom_chip.get? addr

/-- The cartridge dispatch shared by the two MBC arms of `write`
(memory.rs lines 177-190). -/
def cartWrite (s : Memory) (addr val : Nat) : Option Memory :=
  match s.memory_bank with
  | .MBC1 => mbc1_write s addr val
  | .MBC3 => mbc3_write s addr val
  | _ => some s

/-- A sequence of bus writes, failing on the first panic. -/
def writeList (s : Memory) : List (Nat × Nat) → Option Memory
  | [] => some s
  | (a, v) :: rest =>
    match write s a v with
    | none => none
    | some t => writeList t rest

/-- The concrete MBC3 state of the C5 counterexample: upper register 4
selects an RTC register, SRAM disabled. -/
def c5s : Memory :=
  { memDefault with memory_bank := .MBC3, ram_rom_bank_number := 0x04 }

/-- The C5 witness state: MBC3 with upper register 4, SRAM enabled,
ADVANCED banking, header RAM-size byte 0x03 and an empty SRAM vector, so
an enabled SRAM-window write overruns the vector. -/
def c5ws : Memory :=
  { memDefault with
      memory_bank := .MBC3
      ram_rom_bank_number := 0x04
      mbc_ram_enabled := true
      banking_mode := .ADVANCED
      rom_chip := (List.replicate 0x150 0x00).set RAM_SIZE 0x03 }

/-- The freshly latched interrupt-request bits as the specification states
them: bit 0 for an unconsumed VBLANK edge, bit 1 for an unconsumed STAT
edge with at least one of the four STAT sources active, bit 2 when the
delayed timer counter reaches zero on this cycle. -/
def latched_requests (s : Memory) : Nat :=
  (if s.ppu.vblank_irq_triggered = false then 0b00000001 else 0) |||
  (if s.ppu.stat_irq_triggered = false ∧
      ((((s.ppu.stat >>> 6) &&& 0x1 = 1) ∧ s.ppu.ly = s.ppu.lyc) ∨
       (((s.ppu.stat >>> 5) &&& 0x1 = 1) ∧ s.ppu.stat &&& 0x3 = 2) ∨
       (((s.ppu.stat >>> 4) &&& 0x1 = 1) ∧ s.ppu.stat &&& 0x3 = 1) ∨
       (((s.ppu.stat >>> 3) &&& 0x1 = 1) ∧ s.ppu.stat &&& 0x3 = 0)) then 0b00000010 else 0) |||
  (if 0 < s.timer.tima_irq ∧ s.timer.tima_irq - 1 = 0 then 0b00000100 else 0)

/-- The concrete MBC3 ROM of the C4 counterexample: bank 0 holds 0x07
everywhere, and the first byte of bank 1 (offset 0x4000) holds 0x99. -/
def c4rom : List Nat := (List.replicate 0x8000 0x07).set 0x4000 0x99

/-- The concrete MBC3 state of the C4 counterexample. -/
def c4s : Memory := { memDefault with memory_bank := .MBC3, rom_chip := c4rom }

/-- The MBC3 state after the 0x80 bank write of the C4 counterexample. -/
def c4t : Memory := { c4s with rom_bank_number := 0x00 }

/-- The concrete 512 KiB MBC1 ROM of the C6 scenario. -/
def c6rom : List Nat := List.replicate 0x80000 0x00

/-- The concrete MBC1 state of the C6 scenario. -/
def c6s : Memory := { memDefault with memory_bank := .MBC1, rom_chip := c6rom }

/-- The post-DMA state of the C7 witness: the default machine after an OAM
DMA from the zeroed WRAM page 0xC0. -/
def c7s2 : Memory :=
  { memDefault with ppu := { memDefault.ppu with oam := List.replicate 0xA0 0x00 } }

/-- The C9 witness machine with a mounted boot ROM. -/
def c9s : Memory := { memDefault with boot_rom_mounted := true }

/-- The C9 witness machine after the unmap write. -/
def c9s1 : Memory := { c9s with boot_rom_mounted := false }

/-- A power of two, the property asserted by `popcount(len) == 1`. -/
def isPow2 (n : Nat) : Prop := ∃ k, n = 2 ^ k

/-- The C2 counterexample cartridge: a 336-byte file whose header declares
MBC1 (byte 0x0147 = 0x01) and no RAM (byte 0x0149 = 0x00). -/
def c2bytes : List Nat := (List.replicate 0x150 0x00).set 0x147 0x01

/-- The state produced by loading the C2 counterexample cartridge. -/
def c10s1 : Memory := { memDefault with rom_chip := c2bytes, memory_bank := .MBC1 }

/-- The C2 witness cartridge: a 336-byte file whose header declares MBC3. -/
def c2wbytes : List Nat := (List.replicate 0x150 0x00).set 0x147 0x0F

/-- The state produced by loading the C2 witness cartridge. -/
def c2ws : Memory := { memDefault with rom_chip := c2wbytes, memory_bank := .MBC3 }

/-- The C3 counterexample cartridge: a 336-byte MBC-less file of zeros. -/
def c3bytes : List Nat := List.replicate 0x150 0x00

/-- The state produced by loading the C3 counterexample cartridge: the ROM
is zero-padded to 0x10000 bytes. -/
def c3s : Memory := { memDefault with rom_chip := c3bytes ++ List.replicate 0xFEB0 0x00 }

/-- The MBC1 machine of the C3 witness. -/
def c3ws : Memory := { memDefault with memory_bank := .MBC1 }

/-- The C10 witness machine with RAM enabled and an empty SRAM vector. -/
def c10s2 : Memory := { c10s1 with mbc_ram_enabled := true }

theorem cartRomRead_mbc1 (s : Memory) (addr : Nat) (hk : s.memory_bank = .MBC1) :
    cartRomRead s addr = mbc1_read s addr := by
  unfold cartRomRead
  rw [hk]

theorem cartRomRead_mbc3 (s : Memory) (addr : Nat) (hk : s.memory_bank = .MBC3) :
    cartRomRead s addr = mbc3_read s addr := by
  unfold cartRomRead
  rw [hk]

theorem cartRomRead_none (s : Memory) (addr : Nat) (hk : s.memory_bank = .MBCNONE) :
    cartRomRead s addr = s.rom_chip.get? addr := by
  unfold cartRomRead
  rw [hk]

theorem cartRomRead_mbc1m (s : Memory) (addr : Nat) (hk : s.memory_bank = .MBC1M) :
    cartRomRead s addr = s.rom_chip.get? addr := by
  unfold cartRomRead
  rw [hk]

theorem cartWrite_mbc1 (s : Memory) (addr val : Nat) (hk : s.memory_bank = .MBC1) :
    cartWrite s addr val = mbc1_write s addr val := by
  unfold cartWrite
  rw [hk]

theorem cartWrite_mbc3 (s : Memory) (addr val : Nat) (hk : s.memory_bank = .MBC3) :
    cartWrite s addr val = mbc3_write s addr val := by
  unfold cartWrite
  rw [hk]

theorem cartWrite_none (s : Memory) (addr val : Nat) (hk : s.memory_bank = .MBCNONE) :
    cartWrite s addr val = some s := by
  unfold cartWrite
  rw [hk]

theorem cartWrite_mbc1m (s : Memory) (addr val : Nat) (hk : s.memory_bank = .MBC1M) :
    cartWrite s addr val = some s := by
  unfold cartWrite
  rw [hk]

theorem mbc1_read_withBoot (s : Memory) (br : List Nat) (addr : Nat) :
    mbc1_read { s with boot_rom := br } addr = mbc1_read s addr := rfl

theorem mbc3_read_withBoot (s : Memory) (br : List Nat) (addr : Nat) :
    mbc3_read { s with boot_rom := br } addr = mbc3_read s addr := rfl

theorem cartRomRead_withBoot (s : Memory) (br : List Nat) (addr : Nat) :
    cartRomRead { s with boot_rom := br } addr = cartRomRead s addr := by
  cases s
  rfl

theorem read_rom_window (s : Memory) (addr : Nat)
    (hb : s.boot_rom_mounted = false ∨ 0x100 ≤ addr) (h : addr ≤ 0x7FFF) :
    read s addr = cartRomRead s addr := by
  unfold read cartRomRead
  rw [if_neg, if_pos h]
  rintro ⟨h1, h2⟩
  rcases hb with hb | hb
  · rw [hb] at h1; cases h1
  · omega

theorem read_sram_window (s : Memory) (addr : Nat)
    (h1 : 0xA000 ≤ addr) (h2 : addr ≤ 0xBFFF) :
    read s addr = cartRomRead s addr := by
  unfold read cartRomRead
  rw [if_neg (by rintro ⟨_, hx⟩; omega), if_neg (by omega), if_pos ⟨h1, h2⟩]

theorem read_wram_window (s : Memory) (addr : Nat)
    (h1 : 0xC000 ≤ addr) (h2 : addr ≤ 0xDFFF) :
    read s addr = s.wram.get? (addr - 0xC000) := by
  unfold read
  rw [if_neg (by rintro ⟨_, hx⟩; omega), if_neg (by omega),
    if_neg (by rintro ⟨_, hx⟩; omega), if_neg (by rintro ⟨_, hx⟩; omega), if_pos ⟨h1, h2⟩]

theorem write_rom_window (s : Memory) (addr val : Nat) (h : addr ≤ 0x7FFF) :
    write s addr val = cartWrite s addr val := by
  unfold write cartWrite
  rw [if_pos h]

theorem write_sram_window (s : Memory) (addr val : Nat)
    (h1 : 0xA000 ≤ addr) (h2 : addr ≤ 0xBFFF) :
    write s addr val = cartWrite s addr val := by
  unfold write cartWrite
  rw [if_neg (by omega), if_pos ⟨h1, h2⟩]

theorem write_wram_window (s : Memory) (addr val : Nat)
    (h1 : 0xC000 ≤ addr) (h2 : addr ≤ 0xDFFF) :
    write s addr val = some { s with wram := s.wram.set (addr - 0xC000) val } := by
  unfold write
  rw [if_neg (by omega), if_neg (by rintro ⟨_, hx⟩; omega),
    if_neg (by rintro ⟨_, hx⟩; omega), if_pos ⟨h1, h2⟩]

theorem write_ff46 (s : Memory) (val : Nat) :
    write s 0xFF46 val = oam_dma_transfer s (val <<< 8) := rfl

theorem write_ff50 (s : Memory) (val : Nat) :
    write s 0xFF50 val =
      some (if val &&& 0x1 = 1 then { s with boot_rom_mounted := false } else s) := rfl

theorem withPpu_boot_rom_mounted (s : Memory) (p : PPU) :
    ({ s with ppu := p } : Memory).boot_rom_mounted = s.boot_rom_mounted := rfl

theorem withPpu_boot_rom (s : Memory) (p : PPU) :
    ({ s with ppu := p } : Memory).boot_rom = s.boot_rom := rfl

theorem withPpu_memory_bank (s : Memory) (p : PPU) :
    ({ s with ppu := p } : Memory).memory_bank = s.memory_bank := rfl

theorem withPpu_rom_chip (s : Memory) (p : PPU) :
    ({ s with ppu := p } : Memory).rom_chip = s.rom_chip := rfl

theorem withPpu_wram (s : Memory) (p : PPU) :
    ({ s with ppu := p } : Memory).wram = s.wram := rfl

theorem withPpu_hram (s : Memory) (p : PPU) :
    ({ s with ppu := p } : Memory).hram = s.hram := rfl

theorem withPpu_timer (s : Memory) (p : PPU) :
    ({ s with ppu := p } : Memory).timer = s.timer := rfl

theorem withPpu_IE (s : Memory) (p : PPU) :
    ({ s with ppu := p } : Memory).IE = s.IE := rfl

theorem withPpu_IF (s : Memory) (p : PPU) :
    ({ s with ppu := p } : Memory).IF = s.IF := rfl

theorem withPpu_ppu (s : Memory) (p : PPU) :
    ({ s with ppu := p } : Memory).ppu = p := rfl

theorem withOam_vram (p : PPU) (o : List Nat) :
    ({ p with oam := o } : PPU).vram = p.vram := rfl

theorem withOam_regs (p : PPU) (o : List Nat) :
    ({ p with oam := o } : PPU).regs = p.regs := rfl

theorem withOam_oam (p : PPU) (o : List Nat) :
    ({ p with oam := o } : PPU).oam = o := rfl

theorem mbc1_read_withPpu (s : Memory) (p : PPU) (addr : Nat) :
    mbc1_read { s with ppu := p } addr = mbc1_read s addr := rfl

theorem mbc3_read_withPpu (s : Memory) (p : PPU) (addr : Nat) :
    mbc3_read { s with ppu := p } addr = mbc3_read s addr := rfl

theorem joypadRead_withPpu (s : Memory) (p : PPU) :
    joypadRead { s with ppu := p } = joypadRead s := rfl

/-- A bus read at or below the WRAM region never consults OAM, so replacing
the OAM buffer does not change its result. -/
theorem read_set_oam (s : Memory) (o : List Nat) (addr : Nat) (ha : addr ≤ 0xDFFF) :
    read { s with ppu := { s.ppu with oam := o } } addr = read s addr := by
  simp only [read, withPpu_boot_rom_mounted, withPpu_boot_rom, withPpu_memory_bank,
    withPpu_rom_chip, withPpu_wram, withPpu_hram, withPpu_timer, withPpu_IE, withPpu_IF,
    withPpu_ppu, withOam_vram, withOam_regs, withOam_oam,
    mbc1_read_withPpu, mbc3_read_withPpu, joypadRead_withPpu]
  by_cases h1 : s.boot_rom_mounted = true ∧ addr ≤ 0xFF
  · simp only [if_pos h1]
  · simp only [if_neg h1]
    by_cases h2 : addr ≤ 0x7FFF
    · simp only [if_pos h2]
    · simp only [if_neg h2]
      by_cases h3 : 0xA000 ≤ addr ∧ addr ≤ 0xBFFF
      · simp only [if_pos h3]
      · simp only [if_neg h3]
        by_cases h4 : 0x8000 ≤ addr ∧ addr ≤ 0x9FFF
        · simp only [if_pos h4]
        · simp only [if_neg h4]
          by_cases h5 : 0xC000 ≤ addr ∧ addr ≤ 0xDFFF
          · simp only [if_pos h5]
          · exfalso
            omega

/-- `oam_dma_go` touches nothing but the OAM buffer. -/
theorem oam_dma_go_frame (source : Nat) :
    ∀ (fuel i : Nat) (s s2 : Memory), oam_dma_go source i fuel s = some s2 →
      s2 = { s with ppu := { s.ppu with oam := s2.ppu.oam } } := by
  intro fuel
  induction fuel with
  | zero =>
    intro i s s2 h
    injection h with h2
    subst h2
    rfl
  | succ fuel ih =>
    intro i s s2 h
    unfold oam_dma_go at h
    split at h
    · cases h
    · have h2 := ih (i + 1) _ s2 h
      exact h2

/-- `oam_dma_transfer` preserves the boot-ROM mounted flag. -/
theorem oam_dma_transfer_boot (s : Memory) (source : Nat) (s2 : Memory)
    (h : oam_dma_transfer s source = some s2) :
    s2.boot_rom_mounted = s.boot_rom_mounted := by
  rw [oam_dma_go_frame source 0xA0 0 s s2 h]

theorem mbc1_write_boot (s : Memory) (a v : Nat) (s2 : Memory)
    (h : mbc1_write s a v = some s2) : s2.boot_rom_mounted = s.boot_rom_mounted := by
  unfold mbc1_write sramSet at h
  repeat' split at h
  all_goals first
    | (injection h with h2; subst h2; rfl)
    | injection h

theorem mbc3_write_boot (s : Memory) (a v : Nat) (s2 : Memory)
    (h : mbc3_write s a v = some s2) : s2.boot_rom_mounted = s.boot_rom_mounted := by
  unfold mbc3_write sramSet at h
  repeat' split at h
  all_goals first
    | (injection h with h2; subst h2; rfl)
    | injection h

/-- No arm of `write` can set the mounted flag: the 0xFF50 arm only ever
clears it, and every other arm leaves it alone. -/
theorem write_boot_mono (s : Memory) (a v : Nat) (s2 : Memory)
    (hm : s.boot_rom_mounted = false) (h : write s a v = some s2) :
    s2.boot_rom_mounted = false := by
  unfold write at h
  by_cases c1 : a ≤ 0x7FFF
  · rw [if_pos c1] at h
    cases hk : s.memory_bank <;> rw [hk] at h <;>
      first
        | (injection h with h2; subst h2; exact hm)
        | exact (mbc1_write_boot s a v s2 h).trans hm
        | exact (mbc3_write_boot s a v s2 h).trans hm
  rw [if_neg c1] at h
  by_cases c2 : 0xA000 ≤ a ∧ a ≤ 0xBFFF
  · rw [if_pos c2] at h
    cases hk : s.memory_bank <;> rw [hk] at h <;>
      first
        | (injection h with h2; subst h2; exact hm)
        | exact (mbc1_write_boot s a v s2 h).trans hm
        | exact (mbc3_write_boot s a v s2 h).trans hm
  rw [if_neg c2] at h
  by_cases c3 : 0x8000 ≤ a ∧ a ≤ 0x9FFF
  · rw [if_pos c3] at h
    injection h with h2
    subst h2
    exact hm
  rw [if_neg c3] at h
  by_cases c4 : 0xC000 ≤ a ∧ a ≤ 0xDFFF
  · rw [if_pos c4] at h
    injection h with h2
    subst h2
    exact hm
  rw [if_neg c4] at h
  by_cases c5 : 0xFE00 ≤ a ∧ a ≤ 0xFE9F
  · rw [if_pos c5] at h
    injection h with h2
    subst h2
    exact hm
  rw [if_neg c5] at h
  by_cases c6 : a = 0xFF00
  · rw [if_pos c6] at h
    injection h with h2
    subst h2
    exact hm
  rw [if_neg c6] at h
  by_cases c7 : 0xFF04 ≤ a ∧ a ≤ 0xFF07
  · rw [if_pos c7] at h
    injection h with h2
    subst h2
    exact hm
  rw [if_neg c7] at h
  by_cases c8 : a = 0xFF0F
  · rw [if_pos c8] at h
    injection h with h2
    subst h2
    exact hm
  rw [if_neg c8] at h
  by_cases c9 : a = 0xFF46
  · rw [if_pos c9] at h
    exact (oam_dma_transfer_boot _ _ _ h).trans hm
  rw [if_neg c9] at h
  by_cases c10 : 0xFF40 ≤ a ∧ a ≤ 0xFF4B
  · rw [if_pos c10] at h
    injection h with h2
    subst h2
    exact hm
  rw [if_neg c10] at h
  by_cases c11 : a = 0xFF50
  · rw [if_pos c11] at h
    injection h with h2
    subst h2
    by_cases cv : v &&& 0x1 = 1
    · rw [if_pos cv]
    · rw [if_neg cv]
      exact hm
  rw [if_neg c11] at h
  by_cases c12 : 0xFF80 ≤ a ∧ a ≤ 0xFFFE
  · rw [if_pos c12] at h
    injection h with h2
    subst h2
    exact hm
  rw [if_neg c12] at h
  by_cases c13 : a = 0xFFFF
  · rw [if_pos c13] at h
    injection h with h2
    subst h2
    exact hm
  rw [if_neg c13] at h
  injection h with h2
  subst h2
  exact hm

/-- What `oam_dma_go` computes: OAM slots below `i` are untouched, and the
slots `i ≤ j < i + fuel` receive the bus read of `source + j`; because legal
source pages lie below the OAM region, those reads are unaffected by the
OAM stores already performed, so they equal reads in the pre-transfer
state. -/
theorem oam_dma_go_spec (source : Nat) (hsrc : source + 0xA0 ≤ 0xE000) :
    ∀ (fuel i : Nat) (s s2 : Memory), oam_dma_go source i fuel s = some s2 →
      i + fuel ≤ 0xA0 → 0xA0 ≤ s.ppu.oam.length →
      (∀ j, j < i → s2.ppu.oam.get? j = s.ppu.oam.get? j) ∧
      (∀ j, i ≤ j → j < i + fuel → s2.ppu.oam.get? j = read s (source + j)) := by
  intro fuel
  induction fuel with
  | zero =>
    intro i s s2 h hle hlen
    injection h with h2
    subst h2
    exact ⟨fun j hj => rfl, fun j hj1 hj2 => absurd hj2 (by omega)⟩
  | succ fuel ih =>
    intro i s s2 h hle hlen
    unfold oam_dma_go at h
    cases hr : read s (source + i) with
    | none => rw [hr] at h; cases h
    | some b =>
      rw [hr] at h
      have hlen1 : 0xA0 ≤
          ({ s with ppu := { s.ppu with oam := s.ppu.oam.set i b } } : Memory).ppu.oam.length := by
        simpa using hlen
      have hih := ih (i + 1) _ s2 h (by omega) hlen1
      obtain ⟨ih1, ih2⟩ := hih
      constructor
      · intro j hj
        rw [ih1 j (by omega)]
        show (s.ppu.oam.set i b).get? j = s.ppu.oam.get? j
        exact List.get?_set_ne b s.ppu.oam (by omega)
      · intro j hj1 hj2
        rcases Nat.eq_or_lt_of_le hj1 with hj | hj
        · subst hj
          rw [ih1 i (by omega)]
          show (s.ppu.oam.set i b).get? i = read s (source + i)
          rw [List.get?_set_eq_of_lt b (by omega), hr]
        · rw [ih2 j (by omega) (by omega)]
          exact read_set_oam s (s.ppu.oam.set i b) (source + j) (by omega)

/-- Once the boot ROM is unmounted, no sequence of bus writes can remount
it. -/
theorem writeList_boot_mono (ws : List (Nat × Nat)) :
    ∀ (s s2 : Memory), s.boot_rom_mounted = false → writeList s ws = some s2 →
      s2.boot_rom_mounted = false := by
  induction ws with
  | nil =>
    intro s s2 hm h
    injection h with h2
    subst h2
    exact hm
  | cons p rest ih =>
    intro s s2 hm h
    obtain ⟨a, v⟩ := p
    unfold writeList at h
    cases hw : write s a v with
    | none => rw [hw] at h; cases h
    | some t => rw [hw] at h; exact ih t s2 (write_boot_mono s a v t hm hw) h

/-- C1: the claimed save-state round trip does not hold as described,
because the restore entry point `propogate_buffers` has an empty body and
restores nothing.  First conjunct: `propogate_buffers` is the identity on
the whole machine state.  Second conjunct: saving with
`aggregate_buffers`, then changing a WRAM byte through the bus, then
calling the restore entry point does not reproduce the saved machine
state. -/
theorem c1_restore_stub :
    (∀ s : Memory, propogate_buffers s = s) ∧
    Option.map (fun t => (propogate_buffers t).wram.get? 0)
        (write (aggregate_buffers memDefault).1 0xC000 0x42) = some (some 0x42) ∧
    (aggregate_buffers memDefault).1.wram.get? 0 = some 0x00 := by
  refine ⟨fun s => rfl, ?_, ?_⟩ <;> rfl

/-- C5 counterexample: with the MBC3 upper register above 3, a read of
0xA000 is fatal (`UnsupportedRTC`, modelled as `none`) but a write of
0xA000 is not fatal: it returns the state unchanged, refuting the claimed
read/write symmetry. -/
theorem c5_counterexample :
    read c5s 0xA000 = none ∧ write c5s 0xA000 0x42 = some c5s := by
  exact ⟨rfl, rfl⟩

/-- C5 (amended): for MBC3, an SRAM-window access with the upper register
above 3 is fatal on the read side only.  The write path never consults the
upper register: it takes the ordinary SRAM-store path — with SRAM disabled
the write is silently dropped, and with SRAM enabled it stores at
`sram[addr & 0x1FFF]` in SIMPLE mode, or in ADVANCED mode at that index
plus `upper * 0x2000` when the header RAM-size byte is 0x03, failing only
through an out-of-bounds index, never through the RTC check. -/
theorem c5_mbc3_rtc_asymmetry (s : Memory) (a v : Nat)
    (hk : s.memory_bank = .MBC3) (h1 : 0xA000 ≤ a) (h2 : a ≤ 0xBFFF)
    (hup : 0x03 < s.ram_rom_bank_number) :
    read s a = none ∧
    write s a v =
      (if s.mbc_ram_enabled then
        if s.banking_mode = .ADVANCED then
          match s.rom_chip.get? RAM_SIZE with
          | none => none
          | some rs =>
            sramSet s ((if rs = 0x03 then s.ram_rom_bank_number * 0x2000 else 0) + (a &&& 0x1FFF)) v
        else sramSet s (a &&& 0x1FFF) v
      else some s) := by
  constructor
  · rw [read_sram_window s a h1 h2, cartRomRead_mbc3 s a hk]
    unfold mbc3_read
    rw [if_neg (by omega), if_neg (by omega), if_pos ⟨h1, h2⟩, if_pos hup]
  · rw [write_sram_window s a v h1 h2, cartWrite_mbc3 s a v hk]
    unfold mbc3_write
    rw [if_neg (by omega), if_neg (by omega), if_neg (by omega), if_neg (by omega),
      if_pos ⟨h1, h2⟩]

/-- C5 witness: the amended theorem applied at a state with upper = 4 and
SRAM enabled, where the read is fatal via the RTC check while the write
reaches the ordinary SRAM store and fails only by overrunning the empty
SRAM vector. -/
theorem c5_mbc3_rtc_asymmetry_witness :
    (c5ws.memory_bank = MemoryBank.MBC3 ∧ 0xA000 ≤ 0xA000 ∧ 0xA000 ≤ 0xBFFF ∧
      0x03 < c5ws.ram_rom_bank_number) ∧
    (read c5ws 0xA000 = none ∧
      write c5ws 0xA000 0x42 =
        (if c5ws.mbc_ram_enabled then
          if c5ws.banking_mode = .ADVANCED then
            match c5ws.rom_chip.get? RAM_SIZE with
            | none => none
            | some rs =>
              sramSet c5ws ((if rs = 0x03 then c5ws.ram_rom_bank_number * 0x2000 else 0) + (0xA000 &&& 0x1FFF)) 0x42
          else sramSet c5ws (0xA000 &&& 0x1FFF) 0x42
        else some c5ws)) ∧
    write c5ws 0xA000 0x42 = none :=
  ⟨⟨rfl, by decide, by decide, by decide⟩,
    c5_mbc3_rtc_asymmetry c5ws 0xA000 0x42 rfl (by decide) (by decide) (by decide),
    rfl⟩

theorem ite_or_push (x y : Nat) (c : Prop) [Decidable c] :
    (if c then x ||| y else x) = x ||| (if c then y else 0) := by
  by_cases h : c <;> simp [h]

theorem ite_ite_and (y : Nat) (c d : Prop) [Decidable c] [Decidable d] :
    (if c then (if d then y else 0) else 0) = if c ∧ d then y else 0 := by
  by_cases hc : c <;> by_cases hd : d <;> simp [hc, hd]

theorem or4_fold (x : Nat) (p1 p2 p3 p4 : Prop)
    [Decidable p1] [Decidable p2] [Decidable p3] [Decidable p4] :
    (((x ||| (if p1 then 2 else 0)) ||| (if p2 then 2 else 0)) ||| (if p3 then 2 else 0)) |||
      (if p4 then 2 else 0) = x ||| (if p1 ∨ p2 ∨ p3 ∨ p4 then 2 else 0) := by
  by_cases h1 : p1 <;> by_cases h2 : p2 <;> by_cases h3 : p3 <;> by_cases h4 : p4 <;>
    simp [h1, h2, h3, h4, Nat.or_assoc, Nat.or_self]

/-- C8: after `update_requested_interrupts`, IF equals the bitwise OR of
its prior value with the freshly latched request bits, both PPU edge flags
are marked consumed, and IE is unchanged. -/
theorem c8_interrupt_latch (s : Memory) :
    (update_requested_interrupts s).IF = s.IF ||| latched_requests s ∧
    (update_requested_interrupts s).ppu.vblank_irq_triggered = true ∧
    (update_requested_interrupts s).ppu.stat_irq_triggered = true ∧
    (update_requested_interrupts s).IE = s.IE := by
  refine ⟨?_, ?_, ?_, ?_⟩
  · simp only [update_requested_interrupts, latched_requests]
    simp only [or4_fold, ite_or_push, ite_ite_and, Nat.zero_or]
  · dsimp only [update_requested_interrupts]
    cases hv : s.ppu.vblank_irq_triggered <;>
      cases hs : s.ppu.stat_irq_triggered <;>
        simp [hv, hs]
  · dsimp only [update_requested_interrupts]
    cases hv : s.ppu.vblank_irq_triggered <;>
      cases hs : s.ppu.stat_irq_triggered <;>
        simp [hv, hs]
  · rfl

theorem and_3FFF (x : Nat) : x &&& 0x3FFF = x % 0x4000 := by
  have h1 : (0x3FFF : Nat) = 2 ^ 14 - 1 := by norm_num
  have h2 : (0x4000 : Nat) = 2 ^ 14 := by norm_num
  rw [h1, h2, Nat.and_pow_two_sub_one_eq_mod]

theorem and_7FFFF (x : Nat) : x &&& 0x7FFFF = x % 0x80000 := by
  have h1 : (0x7FFFF : Nat) = 2 ^ 19 - 1 := by norm_num
  have h2 : (0x80000 : Nat) = 2 ^ 19 := by norm_num
  rw [h1, h2, Nat.and_pow_two_sub_one_eq_mod]

/-- Folding the low 14 bits of an upper-window address: for `k < 0x4000`,
`(0x4000 + k) & 0x3FFF = k`. -/
theorem and_mask_low (k : Nat) (hk : k < 0x4000) : (0x4000 + k) &&& 0x3FFF = k := by
  rw [and_3FFF]
  omega

/-- A shifted bank number and an in-window offset occupy disjoint bits, so
their bitwise OR is their sum. -/
theorem shiftLeft_or_eq_add (bnk k n : Nat) (hk : k < 2 ^ n) :
    (bnk <<< n) ||| k = (bnk <<< n) + k := by
  rw [Nat.shiftLeft_eq, Nat.mul_comm bnk (2 ^ n)]
  exact (Nat.mul_add_lt_is_or hk bnk).symm

theorem c4rom_length : c4rom.length = 0x8000 := by
  show ((List.replicate 0x8000 0x07).set 0x4000 0x99).length = 0x8000
  rw [List.length_set, List.length_replicate]

/-- C4 counterexample: writing 0x80 (whose low 7 bits are zero) to the MBC3
bank register stores bank 0, and the following read of 0x4000 yields the
byte of ROM bank 0, not ROM bank 1: the zero-to-one translation happens at
write time on the exact value 0x00 only, and no translation happens at
read time. -/
theorem c4_counterexample :
    write c4s 0x2000 0x80 = some c4t ∧
    read c4t 0x4000 = some 0x07 ∧
    c4rom.get? (0x01 * 0x4000) = some 0x99 := by
  refine ⟨rfl, ?_, ?_⟩
  · rw [read_rom_window c4t 0x4000 (Or.inr (by norm_num)) (by norm_num),
      cartRomRead_mbc3 c4t 0x4000 rfl]
    unfold mbc3_read
    rw [if_neg (by norm_num), if_pos (by norm_num)]
    dsimp only
    rw [show c4t.rom_chip = c4rom from rfl, show c4t.rom_bank_number = 0x00 from rfl,
      c4rom_length]
    rw [show (((0x00 : Nat) <<< 14) ||| (0x4000 &&& 0x3FFF)) &&& (0x8000 - 1) = 0 from by decide]
    show ((List.replicate 0x8000 0x07).set 0x4000 0x99).get? 0 = some 0x07
    rfl
  · show ((List.replicate 0x8000 0x07).set 0x4000 0x99).get? (0x01 * 0x4000) = some 0x99
    rw [show (0x01 * 0x4000 : Nat) = 0x4000 by norm_num]
    rw [List.get?_set_eq_of_lt 0x99 (by rw [List.length_replicate]; norm_num)]

/-- C4 (amended): the MBC3 bank-register write translates at write time,
storing `(val == 0) ? 1 : (val & 0x7F)`, and the upper-window read uses the
stored bank with no further translation. -/
theorem c4_mbc3_write_time_translation (s : Memory) (a v k : Nat)
    (hkind : s.memory_bank = .MBC3) (ha1 : 0x2000 ≤ a) (ha2 : a ≤ 0x3FFF)
    (hk : k < 0x4000) :
    write s a v = some { s with rom_bank_number := if v = 0x00 then 0x01 else v &&& 0x7F } ∧
    read s (0x4000 + k) =
      s.rom_chip.get? (((s.rom_bank_number <<< 14) ||| k) &&& (s.rom_chip.length - 1)) := by
  constructor
  · rw [write_rom_window s a v (by omega), cartWrite_mbc3 s a v hkind]
    unfold mbc3_write
    rw [if_neg (by omega), if_pos (by omega)]
  · rw [read_rom_window s _ (Or.inr (by omega)) (by omega), cartRomRead_mbc3 s _ hkind]
    unfold mbc3_read
    rw [if_neg (by omega), if_pos (by omega)]
    dsimp only
    rw [and_mask_low k hk]

/-- C4 witness: the amended theorem applied at the counterexample state. -/
theorem c4_mbc3_write_time_translation_witness :
    (c4s.memory_bank = MemoryBank.MBC3 ∧ 0x2000 ≤ 0x2000 ∧ 0x2000 ≤ 0x3FFF ∧ (0 : Nat) < 0x4000) ∧
    (write c4s 0x2000 0x80 = some { c4s with rom_bank_number := 0x00 } ∧
      read c4s (0x4000 + 0) =
        c4s.rom_chip.get? (((c4s.rom_bank_number <<< 14) ||| 0) &&& (c4s.rom_chip.length - 1))) :=
  ⟨⟨rfl, by norm_num, by norm_num, by norm_num⟩,
    c4_mbc3_write_time_translation c4s 0x2000 0x80 0 rfl (by norm_num) (by norm_num) (by norm_num)⟩

/-- C6: for MBC1 with the upper register 0, the upper ROM window at
`0x4000 + k` reads `ROM[(((rom_bank_lo == 0 ? 1 : rom_bank_lo) << 14) | k) &
(len - 1)]`; with a 512 KiB ROM, after writing 0x05 to the bank register the
read returns `ROM[0x05 * 0x4000 + k]`, and after writing 0x00 it returns
`ROM[0x01 * 0x4000 + k]` (the zero-to-one remap). -/
theorem c6_mbc1_bank_switch (s : Memory) (k : Nat)
    (hkind : s.memory_bank = .MBC1) (hupper : s.ram_rom_bank_number = 0)
    (hk : k < 0x4000) (hlen : s.rom_chip.length = 0x80000) :
    read s (0x4000 + k) =
      s.rom_chip.get? ((((if s.rom_bank_number = 0x00 then 0x01 else s.rom_bank_number) <<< 14) |||
        k) &&& (s.rom_chip.length - 1)) ∧
    (write s 0x2100 0x05).bind (fun t => read t (0x4000 + k)) =
      s.rom_chip.get? (0x05 * 0x4000 + k) ∧
    (write s 0x2100 0x00).bind (fun t => read t (0x4000 + k)) =
      s.rom_chip.get? (0x01 * 0x4000 + k) := by
  have h214 : (2 : Nat) ^ 14 = 0x4000 := by norm_num
  have hread : ∀ t : Memory, t.memory_bank = .MBC1 → t.ram_rom_bank_number = 0 →
      read t (0x4000 + k) =
        t.rom_chip.get? ((((if t.rom_bank_number = 0x00 then 0x01 else t.rom_bank_number) <<< 14) |||
          k) &&& (t.rom_chip.length - 1)) := by
    intro t htk htu
    rw [read_rom_window t _ (Or.inr (by omega)) (by omega), cartRomRead_mbc1 t _ htk]
    unfold mbc1_read
    rw [if_neg (by omega), if_pos (by omega)]
    dsimp only
    rw [htu, and_mask_low k hk, show ((0 : Nat) <<< 19) = 0 by rfl, Nat.zero_or]
  have hw : ∀ v : Nat, write s 0x2100 v = some { s with rom_bank_number := v &&& 0x1F } := by
    intro v
    rw [write_rom_window s 0x2100 v (by omega), cartWrite_mbc1 s 0x2100 v hkind]
    unfold mbc1_write
    rw [if_neg (by omega), if_pos (by omega)]
  refine ⟨hread s hkind hupper, ?_, ?_⟩
  · rw [hw 0x05]
    show read { s with rom_bank_number := 0x05 &&& 0x1F } (0x4000 + k) = _
    rw [hread { s with rom_bank_number := 0x05 &&& 0x1F } hkind hupper]
    show s.rom_chip.get? ((((0x05 : Nat) <<< 14) ||| k) &&& (s.rom_chip.length - 1)) = _
    rw [hlen, shiftLeft_or_eq_add 0x05 k 14 (h214 ▸ hk)]
    show s.rom_chip.get? ((0x14000 + k) &&& 0x7FFFF) = s.rom_chip.get? (0x14000 + k)
    rw [and_7FFFF]
    congr 1
    omega
  · rw [hw 0x00]
    show read { s with rom_bank_number := 0x00 &&& 0x1F } (0x4000 + k) = _
    rw [hread { s with rom_bank_number := 0x00 &&& 0x1F } hkind hupper]
    show s.rom_chip.get? ((((0x01 : Nat) <<< 14) ||| k) &&& (s.rom_chip.length - 1)) = _
    rw [hlen, shiftLeft_or_eq_add 0x01 k 14 (h214 ▸ hk)]
    show s.rom_chip.get? ((0x4000 + k) &&& 0x7FFFF) = s.rom_chip.get? (0x4000 + k)
    rw [and_7FFFF]
    congr 1
    omega

/-- C6 witness: the theorem applied at a concrete 512 KiB MBC1 state with
`k = 0`. -/
theorem c6_mbc1_bank_switch_witness :
    (c6s.memory_bank = MemoryBank.MBC1 ∧ c6s.ram_rom_bank_number = 0 ∧ (0 : Nat) < 0x4000 ∧
      c6s.rom_chip.length = 0x80000) ∧
    (read c6s (0x4000 + 0) =
      c6s.rom_chip.get? ((((if c6s.rom_bank_number = 0x00 then 0x01 else c6s.rom_bank_number) <<<
        14) ||| 0) &&& (c6s.rom_chip.length - 1)) ∧
      (write c6s 0x2100 0x05).bind (fun t => read t (0x4000 + 0)) =
        c6s.rom_chip.get? (0x05 * 0x4000 + 0) ∧
      (write c6s 0x2100 0x00).bind (fun t => read t (0x4000 + 0)) =
        c6s.rom_chip.get? (0x01 * 0x4000 + 0)) :=
  ⟨⟨rfl, rfl, by norm_num, by simp only [c6s, c6rom, List.length_replicate]⟩,
    c6_mbc1_bank_switch c6s 0 rfl rfl (by norm_num)
      (by simp only [c6s, c6rom, List.length_replicate])⟩

/-- C7: a write of page `v` to 0xFF46 performs the OAM DMA burst: after it,
every OAM slot `i` holds the bus read of `(v <<< 8) + i`.  The reads go
through the full bus decoder; for source pages up to 0xDF (ROM, VRAM, SRAM
and WRAM, which all lie below the OAM region) no read depends on the OAM
stores already performed, so slot `i` equals the read of the pre-transfer
state, evaluated in increasing slot order by the transfer loop itself. -/
theorem c7_oam_dma (s : Memory) (v : Nat) (s2 : Memory)
    (hv : v ≤ 0xDF) (hoam : s.ppu.oam.length = 0xA0)
    (hw : write s 0xFF46 v = some s2) :
    ∀ i, i < 0xA0 → s2.ppu.oam.get? i = read s ((v <<< 8) + i) := by
  intro i hi
  rw [write_ff46] at hw
  have h28 : (2 : Nat) ^ 8 = 0x100 := by norm_num
  have hsrc : (v <<< 8) + 0xA0 ≤ 0xE000 := by
    rw [Nat.shiftLeft_eq, h28]
    omega
  have hspec := oam_dma_go_spec (v <<< 8) hsrc 0xA0 0 s s2 hw (by omega) (by omega)
  exact hspec.2 i (by omega) (by omega)

/-- C7 witness: the theorem applied to a DMA from WRAM page 0xC0 on the
default machine, at OAM slot 0. -/
theorem c7_oam_dma_witness :
    ((0xC0 : Nat) ≤ 0xDF ∧ memDefault.ppu.oam.length = 0xA0 ∧
      write memDefault 0xFF46 0xC0 = some c7s2) ∧
    c7s2.ppu.oam.get? 0 = read memDefault ((0xC0 <<< 8) + 0) :=
  ⟨⟨by norm_num, rfl, rfl⟩,
    c7_oam_dma memDefault 0xC0 c7s2 (by norm_num) rfl rfl 0 (by norm_num)⟩

/-- C9: boot-ROM unmapping is sticky: a write to 0xFF50 with bit 0 set
clears the mounted flag, no later sequence of bus writes can set it again,
and once it is clear every read of 0x0000..0x00FF is answered by the
cartridge ROM dispatch and is independent of the boot-ROM contents. -/
theorem c9_bootrom_unmap_sticky (s : Memory) (v : Nat) (ws : List (Nat × Nat)) (s1 s2 : Memory)
    (hv : v &&& 0x1 = 1) (h1 : write s 0xFF50 v = some s1) (h2 : writeList s1 ws = some s2) :
    s1.boot_rom_mounted = false ∧ s2.boot_rom_mounted = false ∧
    ∀ a, a ≤ 0xFF → read s2 a = cartRomRead s2 a ∧
      ∀ br, read { s2 with boot_rom := br } a = read s2 a := by
  have hm1 : s1.boot_rom_mounted = false := by
    rw [write_ff50, if_pos hv] at h1
    injection h1 with h1e
    subst h1e
    rfl
  have hm2 : s2.boot_rom_mounted = false := writeList_boot_mono ws s1 s2 hm1 h2
  refine ⟨hm1, hm2, ?_⟩
  intro a ha
  constructor
  · rw [read_rom_window s2 a (Or.inl hm2) (by omega)]
  · intro br
    rw [read_rom_window { s2 with boot_rom := br } a (Or.inl hm2) (by omega),
      read_rom_window s2 a (Or.inl hm2) (by omega)]
    exact cartRomRead_withBoot s2 br a

/-- C9 witness: unmap with value 0x01, then rewrite 0xFF50 with 0x00; the
boot ROM stays unmapped and a read of address 0 is served by the cartridge
dispatch, unchanged under any replacement of the boot-ROM bytes. -/
theorem c9_bootrom_unmap_sticky_witness :
    ((0x01 : Nat) &&& 0x1 = 1 ∧ write c9s 0xFF50 0x01 = some c9s1 ∧
      writeList c9s1 [(0xFF50, 0x00)] = some c9s1) ∧
    (c9s1.boot_rom_mounted = false ∧ c9s1.boot_rom_mounted = false ∧
      read c9s1 0x00 = cartRomRead c9s1 0x00 ∧
      read { c9s1 with boot_rom := List.replicate 0x100 0xAA } 0x00 = read c9s1 0x00) :=
  ⟨⟨by norm_num, rfl, rfl⟩, by
    have h := c9_bootrom_unmap_sticky c9s 0x01 [(0xFF50, 0x00)] c9s1 c9s1 (by norm_num) rfl rfl
    exact ⟨h.1, h.2.1, (h.2.2 0x00 (by norm_num)).1,
      (h.2.2 0x00 (by norm_num)).2 (List.replicate 0x100 0xAA)⟩⟩

theorem listResize_length (l : List Nat) (n v : Nat) : (listResize l n v).length = n := by
  unfold listResize
  split
  · rw [List.length_take]
    omega
  · rw [List.length_append, List.length_replicate]
    omega

/-- Case analysis of a successful `load_cartridge`: an MBC-less cartridge
stores the file resized to 0x10000 bytes, while MBC1 and MBC3 cartridges
store the file verbatim. -/
theorem load_cases (s : Memory) (bytes : List Nat) (s1 : Memory)
    (h : load_cartridge s bytes = some s1) :
    (s1.memory_bank = .MBCNONE ∧ s1.rom_chip = listResize bytes 0x10000 0x00) ∨
    ((s1.memory_bank = .MBC1 ∨ s1.memory_bank = .MBC3) ∧ s1.rom_chip = bytes) := by
  unfold load_cartridge at h
  dsimp only at h
  cases hr : bytes.get? RAM_SIZE with
  | none => rw [hr] at h; cases h
  | some rs =>
    rw [hr] at h
    dsimp only at h
    cases hmt : bytes.get? MBC_TYPE with
    | none => rw [hmt] at h; cases h
    | some mt =>
      rw [hmt] at h
      dsimp only at h
      repeat' split at h
      all_goals first
        | (injection h with he; subst he; exact Or.inl ⟨rfl, rfl⟩)
        | (injection h with he; subst he; exact Or.inr ⟨Or.inl rfl, rfl⟩)
        | (injection h with he; subst he; exact Or.inr ⟨Or.inr rfl, rfl⟩)
        | injection h

/-- C2 (amended): an MBC-less cartridge stores a ROM of length exactly
0x10000, a power of two; MBC1 and MBC3 cartridges store the input file
verbatim, so their ROM length is a power of two exactly when the file
length is; and whenever the stored ROM is nonempty, every masked access
`off & (len - 1)` is in bounds. -/
theorem c2_rom_length (s : Memory) (bytes : List Nat) (s1 : Memory)
    (h : load_cartridge s bytes = some s1) :
    (s1.memory_bank = .MBCNONE → s1.rom_chip.length = 0x10000 ∧ isPow2 s1.rom_chip.length) ∧
    ((s1.memory_bank = .MBC1 ∨ s1.memory_bank = .MBC3) → s1.rom_chip = bytes) ∧
    (∀ off, 0 < s1.rom_chip.length →
      off &&& (s1.rom_chip.length - 1) < s1.rom_chip.length) := by
  have hb : ∀ off, 0 < s1.rom_chip.length →
      off &&& (s1.rom_chip.length - 1) < s1.rom_chip.length := by
    intro off hpos
    have hle : off &&& (s1.rom_chip.length - 1) ≤ s1.rom_chip.length - 1 := Nat.and_le_right
    omega
  rcases load_cases s bytes s1 h with ⟨hk, hr⟩ | ⟨hk, hr⟩
  · refine ⟨fun _ => ?_, fun hc => ?_, hb⟩
    · have hlen : s1.rom_chip.length = 0x10000 := by rw [hr, listResize_length]
      exact ⟨hlen, 16, by rw [hlen]; norm_num⟩
    · rcases hc with h1 | h1 <;> rw [hk] at h1 <;> cases h1
  · refine ⟨fun hc => ?_, fun _ => hr, hb⟩
    rcases hk with hk | hk <;> rw [hc] at hk <;> cases hk

/-- C2 counterexample: `load_cartridge` accepts a 336-byte MBC1 file and
stores its ROM verbatim, so the stored ROM length 0x150 is not a power of
two, refuting the claim for arbitrary input file lengths. -/
theorem c2_counterexample :
    Option.map (fun t => t.rom_chip.length) (load_cartridge memDefault c2bytes) = some 0x150 ∧
    ¬ isPow2 0x150 := by
  constructor
  · have hl : load_cartridge memDefault c2bytes = some c10s1 := rfl
    rw [hl]
    show some c2bytes.length = some 0x150
    rw [show c2bytes.length = 0x150 from by
      simp only [c2bytes, List.length_set, List.length_replicate]]
  · rintro ⟨k, hkk⟩
    have hk16 : k ≤ 16 := by
      by_contra hgt
      push_neg at hgt
      have h17 : (2 : Nat) ^ 17 ≤ 2 ^ k := Nat.pow_le_pow_right (by norm_num) hgt
      have h17v : (2 : Nat) ^ 17 = 131072 := by norm_num
      omega
    interval_cases k <;> norm_num at hkk

/-- C2 witness: the amended theorem applied to a concrete MBC3 load. -/
theorem c2_rom_length_witness :
    load_cartridge memDefault c2wbytes = some c2ws ∧
    ((c2ws.memory_bank = MemoryBank.MBCNONE →
        c2ws.rom_chip.length = 0x10000 ∧ isPow2 c2ws.rom_chip.length) ∧
      ((c2ws.memory_bank = MemoryBank.MBC1 ∨ c2ws.memory_bank = MemoryBank.MBC3) →
        c2ws.rom_chip = c2wbytes) ∧
      (∀ off, 0 < c2ws.rom_chip.length →
        off &&& (c2ws.rom_chip.length - 1) < c2ws.rom_chip.length)) :=
  ⟨rfl, c2_rom_length memDefault c2wbytes c2ws rfl⟩

/-- C3 counterexample: on an MBC-less cartridge with SRAM disabled, a read
of 0xA000 returns the ROM byte at that raw address (0x00 here), not 0xFF:
the SRAM window of a cartridge without an MBC falls through to a plain ROM
index. -/
theorem c3_counterexample :
    load_cartridge memDefault c3bytes = some c3s ∧
    c3s.mbc_ram_enabled = false ∧
    read c3s 0xA000 = some 0x00 ∧ read c3s 0xA000 ≠ some 0xFF := by
  have hrom : c3s.rom_chip.get? 0xA000 = some 0x00 := by
    show (c3bytes ++ List.replicate 0xFEB0 0x00).get? 0xA000 = some 0x00
    have hlen : c3bytes.length = 0x150 := by
      simp only [c3bytes, List.length_replicate]
    rw [List.get?_eq_getElem?, List.getElem?_append_right (by omega)]
    rw [List.getElem?_replicate]
    rw [if_pos (by omega)]
  have hread : read c3s 0xA000 = some 0x00 := by
    rw [read_sram_window c3s 0xA000 (by norm_num) (by norm_num), cartRomRead_none c3s 0xA000 rfl]
    exact hrom
  refine ⟨rfl, rfl, hread, ?_⟩
  rw [hread]
  decide

/-- C3 (amended): with SRAM disabled, reads of the 0xA000..0xBFFF window
return 0xFF for MBC1, and for MBC3 when the upper register selects a RAM
bank (at most 3); a cartridge with no MBC instead returns the ROM byte at
the raw address.  Writes to the window leave the state unchanged for every
kind. -/
theorem c3_sram_disabled (s : Memory) (a v : Nat)
    (h1 : 0xA000 ≤ a) (h2 : a ≤ 0xBFFF) (hram : s.mbc_ram_enabled = false)
    (hup : s.memory_bank = .MBC3 → s.ram_rom_bank_number ≤ 0x03) :
    read s a = (match s.memory_bank with
      | .MBC1 => some 0xFF
      | .MBC3 => some 0xFF
      | _ => s.rom_chip.get? a) ∧
    write s a v = some s := by
  constructor
  · rw [read_sram_window s a h1 h2]
    cases hk : s.memory_bank with
    | MBCNONE => rw [cartRomRead_none s a hk]
    | MBC1M => rw [cartRomRead_mbc1m s a hk]
    | MBC1 =>
      rw [cartRomRead_mbc1 s a hk]
      unfold mbc1_read
      rw [if_neg (by omega), if_neg (by omega), if_pos ⟨h1, h2⟩, if_neg (by simp [hram])]
    | MBC3 =>
      rw [cartRomRead_mbc3 s a hk]
      unfold mbc3_read
      rw [if_neg (by omega), if_neg (by omega), if_pos ⟨h1, h2⟩,
        if_neg (by have := hup hk; omega), if_neg (by simp [hram])]
  · rw [write_sram_window s a v h1 h2]
    cases hk : s.memory_bank with
    | MBCNONE => rw [cartWrite_none s a v hk]
    | MBC1M => rw [cartWrite_mbc1m s a v hk]
    | MBC1 =>
      rw [cartWrite_mbc1 s a v hk]
      unfold mbc1_write
      rw [if_neg (by omega), if_neg (by omega), if_neg (by omega), if_neg (by omega),
        if_pos ⟨h1, h2⟩, if_neg (by simp [hram])]
    | MBC3 =>
      rw [cartWrite_mbc3 s a v hk]
      unfold mbc3_write
      rw [if_neg (by omega), if_neg (by omega), if_neg (by omega), if_neg (by omega),
        if_pos ⟨h1, h2⟩, if_neg (by simp [hram])]

/-- C3 witness: the amended theorem applied at an MBC1 state with SRAM
disabled. -/
theorem c3_sram_disabled_witness :
    ((0xA000 : Nat) ≤ 0xA000 ∧ (0xA000 : Nat) ≤ 0xBFFF ∧ c3ws.mbc_ram_enabled = false ∧
      (c3ws.memory_bank = MemoryBank.MBC3 → c3ws.ram_rom_bank_number ≤ 0x03)) ∧
    (read c3ws 0xA000 = some 0xFF ∧ write c3ws 0xA000 0x42 = some c3ws) :=
  ⟨⟨by norm_num, by norm_num, rfl, by decide⟩,
    c3_sram_disabled c3ws 0xA000 0x42 (by norm_num) (by norm_num) rfl (by decide)⟩

/-- Loading an MBC1 cartridge whose header RAM-size byte is 0x00 leaves
SRAM and the MBC control state untouched and stores the file verbatim. -/
theorem load_mbc1_state (s : Memory) (bytes : List Nat) (s1 : Memory)
    (h : load_cartridge s bytes = some s1) (hkind : s1.memory_bank = .MBC1)
    (h149 : bytes.get? RAM_SIZE = some 0x00) :
    s1.sram = s.sram ∧ s1.rom_chip = bytes := by
  unfold load_cartridge at h
  dsimp only at h
  rw [h149] at h
  dsimp only at h
  rw [if_neg (by norm_num), if_neg (by norm_num), if_neg (by norm_num), if_neg (by norm_num)] at h
  cases hmt : bytes.get? MBC_TYPE with
  | none => rw [hmt] at h; cases h
  | some mt =>
    rw [hmt] at h
    dsimp only at h
    repeat' split at h
    all_goals first
      | (injection h with he; subst he; exact ⟨rfl, rfl⟩)
      | (injection h with he; subst he; exact absurd hkind (by simp))
      | injection h

/-- On an MBC1 machine with RAM enabled, an empty SRAM vector and a
header RAM-size byte of 0x00, every SRAM-window access indexes the empty
vector out of bounds: reads and writes both panic. -/
theorem mbc1_empty_sram_access (s2 : Memory) (hk : s2.memory_bank = .MBC1)
    (hsr : s2.sram = []) (hen : s2.mbc_ram_enabled = true)
    (h149 : s2.rom_chip.get? RAM_SIZE = some 0x00) :
    ∀ a v, 0xA000 ≤ a → a ≤ 0xBFFF → read s2 a = none ∧ write s2 a v = none := by
  intro a v ha1 ha2
  constructor
  · rw [read_sram_window s2 a ha1 ha2, cartRomRead_mbc1 s2 a hk]
    unfold mbc1_read
    rw [if_neg (by omega), if_neg (by omega), if_pos ⟨ha1, ha2⟩, hen, if_pos rfl]
    by_cases hadv : s2.banking_mode = BankingMode.ADVANCED
    · rw [if_pos hadv, h149]
      dsimp only
      rw [hsr, List.get?_nil]
    · rw [if_neg hadv, hsr, List.get?_nil]
  · rw [write_sram_window s2 a v ha1 ha2, cartWrite_mbc1 s2 a v hk]
    unfold mbc1_write
    rw [if_neg (by omega), if_neg (by omega), if_neg (by omega), if_neg (by omega),
      if_pos ⟨ha1, ha2⟩, hen, if_pos rfl]
    by_cases hadv : s2.banking_mode = BankingMode.ADVANCED
    · rw [if_pos hadv, h149]
      dsimp only
      unfold sramSet
      rw [if_neg (by rw [hsr]; simp)]
    · rw [if_neg hadv]
      unfold sramSet
      rw [if_neg (by rw [hsr]; simp)]

/-- C10: loading a cartridge as MBC1 whose header RAM-size byte is 0x00
leaves the SRAM vector empty; after enabling RAM with a 0x0A control
write, every read of the 0xA000..0xBFFF window indexes the empty SRAM
vector out of bounds and panics, and so does every write, instead of
returning 0xFF or silently dropping the store. -/
theorem c10_mbc1_empty_sram_panics (s : Memory) (bytes : List Nat) (s1 s2 : Memory)
    (hload : load_cartridge s bytes = some s1) (hkind : s1.memory_bank = .MBC1)
    (h149 : bytes.get? RAM_SIZE = some 0x00) (hs0 : s.sram = [])
    (hen : write s1 0x0000 0x0A = some s2) :
    s2.mbc_ram_enabled = true ∧ s2.sram = [] ∧
    ∀ a v, 0xA000 ≤ a → a ≤ 0xBFFF → read s2 a = none ∧ write s2 a v = none := by
  obtain ⟨hsr, hrc⟩ := load_mbc1_state s bytes s1 hload hkind h149
  have hs1sram : s1.sram = [] := hsr.trans hs0
  have hw : write s1 0x0000 0x0A =
      some { s1 with mbc_ram_enabled := (0x0A &&& 0xF == 0xA : Bool) } := by
    rw [write_rom_window s1 0x0000 0x0A (by norm_num), cartWrite_mbc1 s1 0x0000 0x0A hkind]
    unfold mbc1_write
    rw [if_pos (by norm_num)]
  rw [hw] at hen
  injection hen with he
  subst he
  have hk2 : ({ s1 with mbc_ram_enabled := (0x0A &&& 0xF == 0xA : Bool) } :
      Memory).memory_bank = MemoryBank.MBC1 := hkind
  have hsr2 : ({ s1 with mbc_ram_enabled := (0x0A &&& 0xF == 0xA : Bool) } :
      Memory).sram = [] := hs1sram
  have hrc2 : ({ s1 with mbc_ram_enabled := (0x0A &&& 0xF == 0xA : Bool) } :
      Memory).rom_chip.get? RAM_SIZE = some 0x00 := by
    show s1.rom_chip.get? RAM_SIZE = some 0x00
    rw [hrc]
    exact h149
  exact ⟨rfl, hsr2, mbc1_empty_sram_access _ hk2 hsr2 rfl hrc2⟩

/-- C10 witness: the theorem applied to the concrete 336-byte MBC1 load. -/
theorem c10_mbc1_empty_sram_panics_witness :
    (load_cartridge memDefault c2bytes = some c10s1 ∧ c10s1.memory_bank = MemoryBank.MBC1 ∧
      c2bytes.get? RAM_SIZE = some 0x00 ∧ memDefault.sram = [] ∧
      write c10s1 0x0000 0x0A = some c10s2) ∧
    (c10s2.mbc_ram_enabled = true ∧ c10s2.sram = [] ∧
      read c10s2 0xA000 = none ∧ write c10s2 0xA000 0x42 = none) :=
  ⟨⟨rfl, rfl, rfl, rfl, rfl⟩, by
    have h := c10_mbc1_empty_sram_panics memDefault c2bytes c10s1 c10s2 rfl rfl rfl rfl rfl
    exact ⟨h.1, h.2.1, (h.2.2 0xA000 0x42 (by norm_num) (by norm_num)).1,
      (h.2.2 0xA000 0x42 (by norm_num) (by norm_num)).2⟩⟩

end GB
